import Mathlib

/-!
Shallow embedding of the GenAgent-Pro workflow engine
(src/core/state.py, src/core/orchestrator.py, src/agents/planner_agent.py,
src/agents/executor_agent.py, src/agents/validator_agent.py,
src/agents/memory_agent.py).

External collaborators (the LLM decision layer, the tool implementations,
the vector store) are passed in as oracle parameters; the engine logic —
state record, dependency checking, tool dispatch by name, validation
routing, retry policy, workflow routing — is translated from the source.
-/

namespace GenAgent

/-- Task execution status (state.py, class TaskStatus). -/
inductive TaskStatus where
  | pending
  | inProgress
  | completed
  | failed
  | validationFailed
deriving DecidableEq, Repr

/-- Individual task structure (state.py, class Task). -/
structure Task where
  id : String
  description : String
  agent : String
  status : TaskStatus
  dependencies : List String
  result : Option String
  error : Option String
deriving DecidableEq, Repr

/-- One entry of state["tool_calls"] (executor_agent.py lines 78-82). -/
structure ToolCallEntry where
  task_id : String
  description : String
  result : String
deriving DecidableEq, Repr

/-- Parsed validation verdict (validator_agent.py, _parse_validation);
the score is a number in [0,1], embedded as a rational. -/
structure ValidationResult where
  valid : Bool
  score : ℚ
  feedback : String
deriving DecidableEq, Repr

/-- Result dict returned by a tool's execute (tools/base_tool.py contract:
keys success, result, error). -/
structure ToolResult where
  success : Bool
  result : String
  error : String
deriving DecidableEq, Repr

/-- Global workflow state (state.py, class AgentState).
Python dicts with string keys are embedded as association lists in
insertion order; conversation history entries are (role, content) pairs. -/
structure AgentState where
  user_input : String
  user_goal : String
  task_plan : List Task
  current_task_index : Nat
  current_task : Option Task
  tool_calls : List ToolCallEntry
  execution_results : List (String × String)
  validation_result : Option ValidationResult
  validation_passed : Bool
  retry_count : Nat
  conversation_history : List (String × String)
  retrieved_context : Option String
  next_agent : String
  iteration_count : Nat
  is_complete : Bool
  final_output : Option String
  errors : List String
  warnings : List String
deriving DecidableEq, Repr

/-- create_initial_state (state.py lines 69-90). -/
def create_initial_state (user_input : String) : AgentState :=
  { user_input := user_input
    user_goal := user_input
    task_plan := []
    current_task_index := 0
    current_task := none
    tool_calls := []
    execution_results := []
    validation_result := none
    validation_passed := false
    retry_count := 0
    conversation_history := []
    retrieved_context := none
    next_agent := "planner"
    iteration_count := 0
    is_complete := false
    final_output := none
    errors := []
    warnings := [] }

/-- Whether pat is a prefix of s (character lists). -/
def isPrefixList : List Char → List Char → Bool
  | [], _ => true
  | _ :: _, [] => false
  | p :: ps, c :: cs => p == c && isPrefixList ps cs

/-- Worker for Python str.split(sep) on character lists. The fuel is an
upper bound on the number of characters still to scan (the caller passes
the string length); acc holds the current piece reversed. sep is assumed
non-empty, as in every use below (Python raises on an empty separator). -/
def pySplitAux (pat : List Char) : Nat → List Char → List Char →
    List (List Char)
  | _, [], acc => [acc.reverse]
  | 0, rest, acc => [acc.reverse ++ rest]
  | Nat.succ fuel, c :: cs, acc =>
    if isPrefixList pat (c :: cs) then
      acc.reverse :: pySplitAux pat fuel (List.drop pat.length (c :: cs)) []
    else
      pySplitAux pat fuel cs (c :: acc)

/-- Python str.split(sep) for a non-empty separator: the pieces between
the non-overlapping occurrences of sep, scanned left to right, with
empty pieces kept. -/
def pySplit (s pat : String) : List String :=
  (pySplitAux pat.data s.data.length s.data []).map String.mk

/-- Python str.strip(): remove leading and trailing whitespace. -/
def pyStrip (s : String) : String :=
  String.mk
    (((s.data.dropWhile Char.isWhitespace).reverse.dropWhile
        Char.isWhitespace).reverse)

/-- Python str.lower(). -/
def pyLower (s : String) : String :=
  String.mk (s.data.map Char.toLower)

/-- Python substring test (the `in` operator on strings): `pat in s`
holds exactly when splitting on pat yields at least two pieces. -/
def containsSub (s pat : String) : Bool :=
  (pySplit s pat).length ≥ 2

/-- Python str(x) for an optional string (None renders as "None"). -/
def pyOptStr (o : Option String) : String :=
  match o with
  | some s => s
  | none => "None"

/-- Python dict assignment d[k] = v on a dict embedded as an association
list in insertion order: overwrite an existing key, else append. -/
def dictInsert (d : List (String × String)) (k v : String) :
    List (String × String) :=
  if d.any (fun p => p.1 == k) then
    d.map (fun p => if p.1 == k then (k, v) else p)
  else
    d ++ [(k, v)]

/-- The executor's tool registry self.tools: a lookup from tool name to
the tool's execute function (executor_agent.py line 23). -/
def ToolRegistry : Type := String → Option (String → ToolResult)

/-- ExecutorAgent._check_dependencies (executor_agent.py lines 107-113):
every dependency id must resolve to a task whose status is completed. -/
def check_dependencies (task : Task) (task_plan : List Task) : Bool :=
  task.dependencies.all (fun dep_id =>
    match task_plan.find? (fun t => t.id == dep_id) with
    | some dep_task => dep_task.status == TaskStatus.completed
    | none => false)

/-- ExecutorAgent._execute_with_tools (executor_agent.py lines 151-175).
Parses "TOOL: name | INPUT: data" out of the LLM response; dispatches to
the registry when the name is known, otherwise (and when no tool call is
detected) returns the LLM response unchanged. -/
def execute_with_tools (tools : ToolRegistry) (llm_response : String) :
    String :=
  if containsSub llm_response "TOOL:" && containsSub llm_response "INPUT:" then
    let tool_name :=
      pyStrip ((pySplit ((pySplit llm_response "TOOL:").getD 1 "") "|").getD 0 "")
    let tool_input := pyStrip ((pySplit llm_response "INPUT:").getD 1 "")
    match tools tool_name with
    | some ex =>
      let tool_result := ex tool_input
      if tool_result.success then
        "Tool " ++ tool_name ++ " executed successfully:\n" ++ tool_result.result
      else
        "Tool " ++ tool_name ++ " failed: " ++ tool_result.error
    | none => llm_response
  else
    llm_response

/-- ExecutorAgent.execute (executor_agent.py lines 26-105).
The LLM decision call is an oracle: .ok gives the response text,
.error the message of an exception it raised (handled by the
except branch of the source, lines 98-105). -/
def executor_execute (tools : ToolRegistry) (llm : Except String String)
    (state : AgentState) : AgentState :=
  let task_index := state.current_task_index
  match state.task_plan.get? task_index with
  | none =>
    { state with next_agent := "validator" }
  | some current_task =>
    if ¬ check_dependencies current_task state.task_plan then
      let error_msg := "Dependencies not met for " ++ current_task.id
      { state with
        task_plan := state.task_plan.set task_index
          { current_task with status := TaskStatus.failed,
                              error := some error_msg }
        errors := state.errors ++ [error_msg]
        next_agent := "validator" }
    else
      match llm with
      | Except.error e =>
        { state with
          task_plan := state.task_plan.set task_index
            { current_task with status := TaskStatus.failed,
                                error := some e }
          errors := state.errors ++ ["Execution error: " ++ e]
          next_agent := "validator" }
      | Except.ok llm_response =>
        let result := execute_with_tools tools llm_response
        let updated_task :=
          { current_task with status := TaskStatus.completed,
                              result := some result }
        let new_plan := state.task_plan.set task_index updated_task
        let state1 :=
          { state with
            task_plan := new_plan
            execution_results :=
              dictInsert state.execution_results current_task.id result
            tool_calls := state.tool_calls ++
              [ToolCallEntry.mk current_task.id current_task.description result]
            current_task_index := task_index + 1
            iteration_count := state.iteration_count + 1 }
        if task_index + 1 < new_plan.length then
          { state1 with next_agent := "executor" }
        else
          { state1 with next_agent := "validator" }

/-- ValidatorAgent._is_simple_calculator_task (validator_agent.py lines
197-222): every tool_calls entry's result text must contain "calculator"
(case-insensitively), errors must be empty, and every task in the plan
must have status completed. -/
def is_simple_calculator_task (state : AgentState) : Bool :=
  (state.tool_calls.all (fun tool_call =>
      containsSub (pyLower tool_call.result) "calculator")) &&
  state.errors.isEmpty &&
  ((state.task_plan.filter
      (fun t => t.status == TaskStatus.completed)).length ==
    state.task_plan.length)

/-- ValidatorAgent._compile_final_output (validator_agent.py lines
180-195). -/
def compile_final_output (state : AgentState) : String :=
  let task_parts := state.task_plan.foldr (fun t acc =>
    if t.status == TaskStatus.completed then
      ("✓ " ++ t.description) ::
        ("  Result: " ++ pyOptStr t.result ++ "\n") :: acc
    else if t.status == TaskStatus.failed then
      ("✗ " ++ t.description) ::
        ("  Error: " ++ pyOptStr t.error ++ "\n") :: acc
    else acc) []
  let parts := ("Goal: " ++ state.user_goal ++ "\n") :: task_parts
  let parts :=
    match state.validation_result with
    | some vr => parts ++ ["\nValidation: " ++ vr.feedback]
    | none => parts
  String.intercalate "\n" parts

/-- The per-task reset performed by the validator's retry branch
(validator_agent.py lines 98-100): a failed task becomes pending, any
other task is left as it is. -/
def reset_failed_task (task : Task) : Task :=
  if task.status == TaskStatus.failed then
    { task with status := TaskStatus.pending }
  else
    task

/-- ValidatorAgent.execute, normal scoring path (validator_agent.py lines
49-111 plus the except branch 113-119). The verdict oracle is .ok with
the parsed scorer verdict, or .error with the message of an exception
raised before the verdict was stored (lines 62-66 of the source). -/
def validator_normal (threshold : ℚ)
    (verdict : Except String ValidationResult) (state : AgentState) :
    AgentState :=
  let completed_tasks :=
    state.task_plan.filter (fun t => t.status == TaskStatus.completed)
  let failed_tasks :=
    state.task_plan.filter (fun t => t.status == TaskStatus.failed)
  if completed_tasks.isEmpty && failed_tasks.isEmpty then
    { state with
      validation_passed := false
      next_agent := "end"
      is_complete := true }
  else
    match verdict with
    | Except.error e =>
      { state with
        errors := state.errors ++ ["Validation error: " ++ e]
        validation_passed := false
        next_agent := "end"
        is_complete := true }
    | Except.ok validation_result =>
      let state1 := { state with validation_result := some validation_result }
      if validation_result.valid && validation_result.score ≥ threshold then
        { state1 with
          validation_passed := true
          final_output := some (compile_final_output state1)
          next_agent := "end"
          is_complete := true }
      else
        if state1.retry_count < 2 then
          { state1 with
            validation_passed := false
            retry_count := state1.retry_count + 1
            warnings := state1.warnings ++
              ["Retry " ++ toString (state1.retry_count + 1) ++ ": " ++
                validation_result.feedback]
            current_task_index := 0
            task_plan := state1.task_plan.map reset_failed_task
            next_agent := "executor" }
        else
          { state1 with
            validation_passed := false
            errors := state1.errors ++ ["Validation failed after max retries"]
            final_output := some (compile_final_output state1)
            next_agent := "end"
            is_complete := true }

/-- The state produced by the validator's fast path (validator_agent.py
lines 36-47), applied when _is_simple_calculator_task returns True. -/
def validator_fast_path (state : AgentState) : AgentState :=
  let state1 :=
    { state with
      validation_passed := true
      validation_result := some
        { valid := true, score := 1,
          feedback :=
            "Auto-validated: Simple calculator task completed successfully" } }
  { state1 with
    final_output := some (compile_final_output state1)
    next_agent := "end"
    is_complete := true }

/-- ValidatorAgent.execute (validator_agent.py lines 24-119). -/
def validator_execute (threshold : ℚ)
    (verdict : Except String ValidationResult) (state : AgentState) :
    AgentState :=
  if is_simple_calculator_task state then
    validator_fast_path state
  else
    validator_normal threshold verdict state

/-- A task as emitted by the plan producer before the planner fills in
the fixed initial fields (planner_agent.py lines 80-92). -/
structure PlannedTask where
  id : String
  description : String
  agent : String
  dependencies : List String
deriving DecidableEq, Repr

/-- PlannerAgent.execute (planner_agent.py lines 24-113). The plan
oracle is .ok with the parsed producer tasks, or .error with the message
of an exception from the LLM call or plan parsing (except branch, lines
108-113). Every produced task starts pending with no result and no
error. -/
def planner_execute (plan : Except String (List PlannedTask))
    (state : AgentState) : AgentState :=
  match plan with
  | Except.ok planned =>
    let tasks := planned.map (fun td =>
      Task.mk td.id td.description td.agent TaskStatus.pending
        td.dependencies none none)
    { state with
      task_plan := tasks
      current_task_index := 0
      next_agent := "executor"
      iteration_count := state.iteration_count + 1 }
  | Except.error e =>
    { state with
      errors := state.errors ++ ["Planning error: " ++ e]
      next_agent := "end"
      is_complete := true }

/-- MemoryAgent.execute (memory_agent.py lines 24-65). The store and
retrieve collaborators swallow their own exceptions, so the retrieved
context is a plain string oracle; stats_ok models whether the final
vector-store stats call (line 57) succeeds — when it raises, the except
branch appends a warning after the earlier mutations have been applied. -/
def memory_execute (retrieved : String) (stats_ok : Bool)
    (stats_error : String) (state : AgentState) : AgentState :=
  let state1 :=
    if state.user_input ≠ "" then
      { state with retrieved_context := some retrieved }
    else
      state
  let state2 :=
    { state1 with
      conversation_history :=
        state1.conversation_history ++ [("user", state1.user_input)] }
  let state3 :=
    match state2.final_output with
    | some fo =>
      if fo ≠ "" then
        { state2 with
          conversation_history :=
            state2.conversation_history ++ [("assistant", fo)] }
      else
        state2
    | none => state2
  if stats_ok then
    state3
  else
    { state3 with
      warnings := state3.warnings ++ ["Memory error: " ++ stats_error] }

/-- WorkflowOrchestrator._route_from_planner (orchestrator.py lines
149-153). -/
def route_from_planner (state : AgentState) : String :=
  if state.next_agent == "end" || state.task_plan.isEmpty then "end"
  else "executor"

/-- WorkflowOrchestrator._route_from_executor (orchestrator.py lines
155-162). -/
def route_from_executor (state : AgentState) : String :=
  if state.next_agent == "executor" then "executor"
  else if state.next_agent == "validator" then "validator"
  else "end"

/-- WorkflowOrchestrator._route_from_validator (orchestrator.py lines
164-171). -/
def route_from_validator (state : AgentState) : String :=
  if state.is_complete then
    if state.validation_passed then "memory"
    else "end"
  else "executor"

/-- The four graph nodes of the compiled workflow (orchestrator.py,
_build_workflow). -/
inductive Node where
  | planner
  | executor
  | validator
  | memory
deriving DecidableEq, Repr

/-- Oracle bundling every external collaborator a run consults: the plan
producer, the executor's per-call LLM decisions, the validator's
per-call scorer verdicts, the tool registry, and the memory stage's
vector-store behaviour. -/
structure Oracle where
  plan : Except String (List PlannedTask)
  llmResponses : Nat → Except String String
  verdicts : Nat → Except String ValidationResult
  tools : ToolRegistry
  retrieved : String
  statsOk : Bool
  statsError : String

/-- The compiled LangGraph state machine (orchestrator.py,
_build_workflow plus the conditional edges): starting at the given node,
repeatedly run the node's agent and follow the routing function, until
END or until the recursion-limit fuel runs out (modelled as none, the
GraphRecursionError case). Returns the final state together with the
list of nodes visited, in order. ec and vc count the executor and
validator invocations so far, indexing into the oracle streams. -/
def workflow_invoke (o : Oracle) :
    Nat → Node → Nat → Nat → AgentState → Option (AgentState × List Node)
  | 0, _, _, _, _ => none
  | Nat.succ fuel, Node.planner, ec, vc, s =>
    let s1 := planner_execute o.plan s
    if route_from_planner s1 == "executor" then
      (workflow_invoke o fuel Node.executor ec vc s1).map
        (fun r => (r.1, Node.planner :: r.2))
    else
      some (s1, [Node.planner])
  | Nat.succ fuel, Node.executor, ec, vc, s =>
    let s1 := executor_execute o.tools (o.llmResponses ec) s
    if route_from_executor s1 == "executor" then
      (workflow_invoke o fuel Node.executor (ec + 1) vc s1).map
        (fun r => (r.1, Node.executor :: r.2))
    else if route_from_executor s1 == "validator" then
      (workflow_invoke o fuel Node.validator (ec + 1) vc s1).map
        (fun r => (r.1, Node.executor :: r.2))
    else
      some (s1, [Node.executor])
  | Nat.succ fuel, Node.validator, ec, vc, s =>
    let s1 := validator_execute (8 / 10) (o.verdicts vc) s
    if route_from_validator s1 == "memory" then
      (workflow_invoke o fuel Node.memory ec (vc + 1) s1).map
        (fun r => (r.1, Node.validator :: r.2))
    else if route_from_validator s1 == "executor" then
      (workflow_invoke o fuel Node.executor ec (vc + 1) s1).map
        (fun r => (r.1, Node.validator :: r.2))
    else
      some (s1, [Node.validator])
  | Nat.succ _, Node.memory, _, _, s =>
    let s1 := memory_execute o.retrieved o.statsOk o.statsError s
    some (s1, [Node.memory])

/-- The envelope returned by WorkflowOrchestrator.run (orchestrator.py
lines 173-211). The output field is optional because the state's
final_output can still be None when the run ends. -/
structure RunResult where
  success : Bool
  output : Option String
  validation_passed : Bool
  iterations : Nat
  errors : List String
  warnings : List String
deriving DecidableEq, Repr

/-- WorkflowOrchestrator.run (orchestrator.py lines 173-211): build the
initial state, invoke the compiled workflow (LangGraph's default
recursion limit of 25 super-steps is the fuel), and wrap the final state
in the result envelope; an exception escaping the graph invocation (the
fuel-exhausted case here) produces the failure envelope of the except
branch. The source reads final_state.get("final_output", "No output
generated"), but the final_output key is always present in the state
dict (create_initial_state sets it to None), so dict.get returns the
stored value — possibly None — and the default string is dead; the
envelope's output is therefore the state's final_output as it stands. -/
def orchestrator_run (o : Oracle) (user_input : String) : RunResult :=
  let initial_state := create_initial_state user_input
  match workflow_invoke o 25 Node.planner 0 0 initial_state with
  | some r =>
    { success := true
      output := r.1.final_output
      validation_passed := r.1.validation_passed
      iterations := r.1.iteration_count
      errors := r.1.errors
      warnings := r.1.warnings }
  | none =>
    { success := false
      output := some "Workflow failed: GraphRecursionError"
      validation_passed := false
      iterations := 0
      errors := ["GraphRecursionError"]
      warnings := [] }

/-- One invocation of any agent node on the shared state, with arbitrary
collaborator behaviour: the step relation of the workflow graph. -/
inductive WorkflowStep : AgentState → AgentState → Prop
  | planner (plan : Except String (List PlannedTask)) (s : AgentState) :
      WorkflowStep s (planner_execute plan s)
  | executor (tools : ToolRegistry) (llm : Except String String)
      (s : AgentState) :
      WorkflowStep s (executor_execute tools llm s)
  | validator (threshold : ℚ) (verdict : Except String ValidationResult)
      (s : AgentState) :
      WorkflowStep s (validator_execute threshold verdict s)
  | memory (retrieved : String) (stats_ok : Bool) (stats_error : String)
      (s : AgentState) :
      WorkflowStep s (memory_execute retrieved stats_ok stats_error s)

/-- States reachable in some run: the initial state of any goal, closed
under agent steps. -/
inductive Reachable : AgentState → Prop
  | init (u : String) : Reachable (create_initial_state u)
  | step {s t : AgentState} :
      Reachable s → WorkflowStep s t → Reachable t

/-! ## Concrete fixtures used by witnesses and counterexamples -/

/-- A registry holding only the calculator tool: it succeeds on the
input "5 + 3" with value "8" and reports failure on any other input. -/
def calcRegistry : ToolRegistry := fun name =>
  if name == "calculator" then
    some (fun inp =>
      if inp == "5 + 3" then ToolResult.mk true "8" ""
      else ToolResult.mk false "" "invalid expression")
  else none

/-- A pending one-step arithmetic task with no dependencies. -/
def addTask : Task :=
  Task.mk "task_1" "add two numbers" "executor" TaskStatus.pending [] none none

/-- A state about to execute addTask. -/
def c1State : AgentState :=
  { create_initial_state "add two numbers" with
      task_plan := [addTask]
      next_agent := "executor" }

/-! ## Helper lemmas -/

theorem length_filter_eq_length_iff {α : Type} (p : α → Bool) (l : List α) :
    (l.filter p).length = l.length ↔ ∀ a ∈ l, p a = true := by
  rw [← List.filter_eq_self (p := p)]
  constructor
  · intro h
    exact (List.filter_sublist l).eq_of_length h
  · intro h
    rw [h]

/-- The state produced by a successful executor step (the Except.ok
branch of executor_execute with satisfied dependencies), named for reuse
in proofs. -/
def executorCompletedState (tools : ToolRegistry) (resp : String)
    (s : AgentState) (t : Task) : AgentState :=
  let result := execute_with_tools tools resp
  let new_plan := s.task_plan.set s.current_task_index
    { t with status := TaskStatus.completed, result := some result }
  { s with
    task_plan := new_plan
    execution_results := dictInsert s.execution_results t.id result
    tool_calls := s.tool_calls ++ [ToolCallEntry.mk t.id t.description result]
    current_task_index := s.current_task_index + 1
    iteration_count := s.iteration_count + 1
    next_agent :=
      if s.current_task_index + 1 < new_plan.length then "executor"
      else "validator" }

theorem executor_execute_done (tools : ToolRegistry)
    (llm : Except String String) (s : AgentState)
    (hget : s.task_plan.get? s.current_task_index = none) :
    executor_execute tools llm s = { s with next_agent := "validator" } := by
  simp only [executor_execute]
  rw [hget]

theorem executor_execute_depfail (tools : ToolRegistry)
    (llm : Except String String) (s : AgentState) (t : Task)
    (hget : s.task_plan.get? s.current_task_index = some t)
    (hdep : check_dependencies t s.task_plan = false) :
    executor_execute tools llm s =
      { s with
        task_plan := s.task_plan.set s.current_task_index
          { t with status := TaskStatus.failed,
                   error := some ("Dependencies not met for " ++ t.id) }
        errors := s.errors ++ ["Dependencies not met for " ++ t.id]
        next_agent := "validator" } := by
  simp only [executor_execute, hget, hdep, Bool.false_eq_true,
    not_false_eq_true, if_true]

theorem executor_execute_err (tools : ToolRegistry) (e : String)
    (s : AgentState) (t : Task)
    (hget : s.task_plan.get? s.current_task_index = some t)
    (hdep : check_dependencies t s.task_plan = true) :
    executor_execute tools (Except.error e) s =
      { s with
        task_plan := s.task_plan.set s.current_task_index
          { t with status := TaskStatus.failed, error := some e }
        errors := s.errors ++ ["Execution error: " ++ e]
        next_agent := "validator" } := by
  simp only [executor_execute, hget, hdep, not_true, if_false]

theorem executor_execute_ok (tools : ToolRegistry) (resp : String)
    (s : AgentState) (t : Task)
    (hget : s.task_plan.get? s.current_task_index = some t)
    (hdep : check_dependencies t s.task_plan = true) :
    executor_execute tools (Except.ok resp) s =
      executorCompletedState tools resp s t := by
  simp only [executor_execute, hget, hdep, not_true, if_false,
    executorCompletedState]
  split <;> rfl

/-! ## C1 -/

/-- C1, counterexample: at this concrete input the selected tool exists
in the registry and reports failure (success = false), yet the executor
sets the task's status to Completed; the failure is recorded only in the
result text "Tool calculator failed: invalid expression", contradicting
the claim that the task's status is set to Failed. -/
theorem c1_counterexample :
    (calcRegistry "calculator").map (fun ex => (ex "oops").success) =
      some false ∧
    (executor_execute calcRegistry
        (Except.ok "TOOL: calculator | INPUT: oops") c1State).task_plan =
      [Task.mk "task_1" "add two numbers" "executor" TaskStatus.completed []
        (some "Tool calculator failed: invalid expression") none] := by
  decide

/-- C1 (amended): whenever the decision call returns normally and the
current task's dependencies are satisfied, the executor sets the task's
status to Completed regardless of what the tool reported; a tool-reported
failure is recorded only in the result text returned by
execute_with_tools, which is stored as the task result and appended to
the tool log. -/
theorem c1_amended (tools : ToolRegistry) (resp : String) (s : AgentState)
    (t : Task) (hget : s.task_plan.get? s.current_task_index = some t)
    (hdep : check_dependencies t s.task_plan = true) :
    (executor_execute tools (Except.ok resp) s).task_plan =
      s.task_plan.set s.current_task_index
        { t with status := TaskStatus.completed,
                 result := some (execute_with_tools tools resp) } ∧
    (executor_execute tools (Except.ok resp) s).tool_calls =
      s.tool_calls ++
        [ToolCallEntry.mk t.id t.description (execute_with_tools tools resp)] := by
  rw [executor_execute_ok tools resp s t hget hdep]
  simp only [executorCompletedState]
  refine ⟨?_, ?_⟩ <;> trivial

/-- C1 witness: the amended theorem applied at a concrete failing-tool
input. -/
theorem c1_amended_witness :
    (executor_execute calcRegistry
        (Except.ok "TOOL: calculator | INPUT: oops") c1State).task_plan =
      c1State.task_plan.set c1State.current_task_index
        { addTask with
            status := TaskStatus.completed
            result := some (execute_with_tools calcRegistry
              "TOOL: calculator | INPUT: oops") } ∧
    (executor_execute calcRegistry
        (Except.ok "TOOL: calculator | INPUT: oops") c1State).tool_calls =
      c1State.tool_calls ++
        [ToolCallEntry.mk addTask.id addTask.description
          (execute_with_tools calcRegistry "TOOL: calculator | INPUT: oops")] :=
  c1_amended calcRegistry "TOOL: calculator | INPUT: oops" c1State addTask
    (by decide) (by decide)

/-! ## C2 -/

/-- A state whose retry budget is exhausted: one failed task,
retry_count already at the maximum of 2. -/
def c2State : AgentState :=
  { create_initial_state "goal" with
      task_plan :=
        [{ addTask with status := TaskStatus.failed, error := some "tool broke" }]
      retry_count := 2
      errors := ["err1"] }

/-- C2, counterexample: a validation that fails with the retry budget
exhausted ends the run complete with validation_passed = false, and the
validator routing then returns "end", not "memory": the Persist stage is
skipped, contradicting the claim that exhausted retries still reach the
Memory Sink. -/
theorem c2_counterexample :
    (validator_execute (8 / 10)
        (Except.ok (ValidationResult.mk false 0 "still failing"))
        c2State).is_complete = true ∧
    (validator_execute (8 / 10)
        (Except.ok (ValidationResult.mk false 0 "still failing"))
        c2State).validation_passed = false ∧
    route_from_validator
      (validator_execute (8 / 10)
        (Except.ok (ValidationResult.mk false 0 "still failing"))
        c2State) = "end" := by
  decide

/-- C2 (amended): the validator routing sends a run to the memory
(Persist) stage exactly when the validator ended the run complete with a
passed validation; a normal-path validation that fails with the retry
budget exhausted ends the run complete with validation_passed = false
and is routed to "end" (Done), so its session is not persisted. -/
theorem c2_amended (thr : ℚ) (v : ValidationResult) (s : AgentState)
    (hfast : is_simple_calculator_task s = false)
    (hne : ((s.task_plan.filter
        (fun t => t.status == TaskStatus.completed)).isEmpty &&
      (s.task_plan.filter
        (fun t => t.status == TaskStatus.failed)).isEmpty) = false)
    (hv : (v.valid && decide (v.score ≥ thr)) = false)
    (hretry : 2 ≤ s.retry_count) :
    (∀ st : AgentState,
      route_from_validator st = "memory" ↔
        (st.is_complete = true ∧ st.validation_passed = true)) ∧
    (validator_execute thr (Except.ok v) s).is_complete = true ∧
    (validator_execute thr (Except.ok v) s).validation_passed = false ∧
    route_from_validator (validator_execute thr (Except.ok v) s) = "end" := by
  have hroute : ∀ st : AgentState,
      route_from_validator st = "memory" ↔
        (st.is_complete = true ∧ st.validation_passed = true) := by
    intro st
    unfold route_from_validator
    cases hc : st.is_complete <;> cases hp : st.validation_passed <;> simp
  have hlt : ¬ s.retry_count < 2 := by omega
  refine ⟨hroute, ?_⟩
  simp only [validator_execute, hfast, Bool.false_eq_true, if_false,
    validator_normal, hne, hv, hlt]
  refine ⟨?_, ?_, ?_⟩ <;> trivial

/-- C2 witness: the amended theorem applied at the concrete
exhausted-retry state. -/
theorem c2_amended_witness :
    (validator_execute (8 / 10)
        (Except.ok (ValidationResult.mk false 0 "w")) c2State).is_complete =
      true ∧
    (validator_execute (8 / 10)
        (Except.ok (ValidationResult.mk false 0 "w")) c2State).validation_passed =
      false ∧
    route_from_validator
      (validator_execute (8 / 10)
        (Except.ok (ValidationResult.mk false 0 "w")) c2State) = "end" :=
  (c2_amended (8 / 10) (ValidationResult.mk false 0 "w") c2State
    (by decide) (by decide) (by decide) (by decide)).2

/-! ## C3 -/

/-- The state right after a retry reset: the first task already
Completed with a stored result, the second reset to Pending, and the
cursor back at 0 (validator_agent.py lines 96-102). -/
def c3State : AgentState :=
  { create_initial_state "goal" with
      task_plan :=
        [{ addTask with status := TaskStatus.completed, result := some "old result" },
         Task.mk "task_2" "second step" "executor" TaskStatus.pending []
           none none]
      current_task_index := 0
      retry_count := 1
      next_agent := "executor" }

/-- C3: contrary to the claim, the executor re-executes the Completed
task sitting at the cursor after a retry reset: starting from c3State
(task_1 Completed with result "old result", cursor 0) the next executor
step invokes the calculator tool again for task_1 — a fresh toolLog
entry for task_1 appears — and task_1's stored result is overwritten
with the new tool output. -/
theorem c3_reexecutes_completed_task :
    (c3State.task_plan.get? 0).map Task.status = some TaskStatus.completed ∧
    (executor_execute calcRegistry
        (Except.ok "TOOL: calculator | INPUT: 5 + 3") c3State).tool_calls =
      [ToolCallEntry.mk "task_1" "add two numbers"
        "Tool calculator executed successfully:\n8"] ∧
    ((executor_execute calcRegistry
        (Except.ok "TOOL: calculator | INPUT: 5 + 3") c3State).task_plan.get?
          0).map Task.result =
      some (some "Tool calculator executed successfully:\n8") := by
  decide

/-! ## C4 -/

/-- An oracle whose plan producer returns zero tasks; all other
collaborators are irrelevant to the resulting run. -/
def emptyPlanOracle : Oracle :=
  { plan := Except.ok []
    llmResponses := fun _ => Except.error "unused"
    verdicts := fun _ => Except.error "unused"
    tools := fun _ => none
    retrieved := ""
    statsOk := true
    statsError := "" }

/-- C4, counterexample: with a producer returning zero tasks the run
visits only the planner node — the Execute stage is indeed never
entered — but the run envelope reports success = true (not false as
claimed) and the final state's done flag (is_complete) is false (not
true as claimed). -/
theorem c4_counterexample :
    (orchestrator_run emptyPlanOracle "goal").success = true ∧
    (workflow_invoke emptyPlanOracle 25 Node.planner 0 0
        (create_initial_state "goal")).map (fun r => r.2) =
      some [Node.planner] ∧
    (workflow_invoke emptyPlanOracle 25 Node.planner 0 0
        (create_initial_state "goal")).map (fun r => r.1.is_complete) =
      some false := by
  decide

/-- C4 (amended): when the plan producer returns zero tasks the workflow
terminates immediately after the planner node — the executor node is
never visited — but the run envelope reports success = true with
validation_passed = false and output None (final_output was never set),
and the final state's is_complete flag remains false. -/
theorem c4_amended (o : Oracle) (goal : String)
    (h : o.plan = Except.ok []) :
    (workflow_invoke o 25 Node.planner 0 0 (create_initial_state goal)).map
        (fun r => r.2) = some [Node.planner] ∧
    (workflow_invoke o 25 Node.planner 0 0 (create_initial_state goal)).map
        (fun r => r.1.is_complete) = some false ∧
    (orchestrator_run o goal).success = true ∧
    (orchestrator_run o goal).validation_passed = false ∧
    (orchestrator_run o goal).output = none := by
  obtain ⟨plan, llmR, verd, tools, retr, sOk, sErr⟩ := o
  simp only at h
  subst h
  refine ⟨rfl, rfl, rfl, rfl, rfl⟩

/-- C4 witness: the amended theorem applied to the concrete zero-task
oracle. -/
theorem c4_amended_witness :
    (workflow_invoke emptyPlanOracle 25 Node.planner 0 0
        (create_initial_state "goal")).map (fun r => r.2) =
      some [Node.planner] ∧
    (workflow_invoke emptyPlanOracle 25 Node.planner 0 0
        (create_initial_state "goal")).map (fun r => r.1.is_complete) =
      some false ∧
    (orchestrator_run emptyPlanOracle "goal").success = true ∧
    (orchestrator_run emptyPlanOracle "goal").validation_passed = false ∧
    (orchestrator_run emptyPlanOracle "goal").output = none :=
  c4_amended emptyPlanOracle "goal" rfl

/-! ## C5 -/

/-- A state with one Completed task, no errors, and an empty toolLog. -/
def c5State : AgentState :=
  { create_initial_state "goal" with
      task_plan :=
        [{ addTask with status := TaskStatus.completed, result := some "done" }] }

/-- A state that deviates from the fast-path conditions (non-empty
errors list), used to witness that the full scoring path is taken. -/
def c5NormalState : AgentState :=
  { c5State with errors := ["boom"] }

/-- C5, counterexample: c5State has an empty toolLog, so by the claim it
must take the full scoring path; instead the code auto-validates it —
the verdict passed = true with score 1 is installed even though the
external scorer (which here would say failed with score 0) is never
consulted. -/
theorem c5_counterexample :
    c5State.tool_calls = [] ∧
    (validator_execute (8 / 10)
        (Except.ok (ValidationResult.mk false 0 "scorer rejects"))
        c5State).validation_passed = true ∧
    (validator_execute (8 / 10)
        (Except.ok (ValidationResult.mk false 0 "scorer rejects"))
        c5State).validation_result =
      some (ValidationResult.mk true 1
        "Auto-validated: Simple calculator task completed successfully") := by
  decide

/-- C5 (amended): the fast path triggers iff every toolLog entry's
result text contains "calculator" (case-insensitively) — vacuously true
when the toolLog is empty — and the errors list is empty and every task
is Completed; toolLog non-emptiness is not required. When the trigger
predicate holds the validator produces the auto-validated verdict
(passed, score 1) regardless of the scorer verdict, and when it fails
the validator runs the normal scoring path. -/
theorem c5_amended (thr : ℚ) (v : Except String ValidationResult)
    (s : AgentState) :
    (is_simple_calculator_task s = true ↔
      ((∀ e ∈ s.tool_calls,
          containsSub (pyLower e.result) "calculator" = true) ∧
        s.errors = [] ∧
        ∀ t ∈ s.task_plan, t.status = TaskStatus.completed)) ∧
    (is_simple_calculator_task s = true →
      validator_execute thr v s = validator_fast_path s) ∧
    (is_simple_calculator_task s = false →
      validator_execute thr v s = validator_normal thr v s) := by
  refine ⟨?_, ?_, ?_⟩
  · unfold is_simple_calculator_task
    rw [Bool.and_eq_true, Bool.and_eq_true]
    rw [List.all_eq_true]
    rw [List.isEmpty_iff]
    rw [beq_iff_eq]
    rw [length_filter_eq_length_iff]
    constructor
    · rintro ⟨⟨h1, h2⟩, h3⟩
      exact ⟨h1, h2, fun t ht => by
        have := h3 t ht
        rwa [beq_iff_eq] at this⟩
    · rintro ⟨h1, h2, h3⟩
      exact ⟨⟨h1, h2⟩, fun t ht => by rw [beq_iff_eq]; exact h3 t ht⟩
  · intro h
    simp only [validator_execute, h, if_true]
  · intro h
    simp only [validator_execute, h, Bool.false_eq_true, if_false]

/-- C5 witness: the amended theorem applied at concrete states — the
fast path fires on c5State (empty toolLog, all tasks Completed), and a
deviating state (non-empty errors) goes down the normal path. -/
theorem c5_amended_witness :
    validator_execute (8 / 10)
        (Except.ok (ValidationResult.mk false 0 "w")) c5State =
      validator_fast_path c5State ∧
    validator_execute (8 / 10)
        (Except.ok (ValidationResult.mk false 0 "w")) c5NormalState =
      validator_normal (8 / 10)
        (Except.ok (ValidationResult.mk false 0 "w")) c5NormalState :=
  ⟨(c5_amended (8 / 10) (Except.ok (ValidationResult.mk false 0 "w"))
      c5State).2.1 (by decide),
   (c5_amended (8 / 10) (Except.ok (ValidationResult.mk false 0 "w"))
      c5NormalState).2.2 (by decide)⟩

/-! ## C6 -/

/-- A state whose only task depends on an id that does not exist in the
plan. -/
def c6State : AgentState :=
  { create_initial_state "goal" with
      task_plan :=
        [Task.mk "task_1" "dependent step" "executor" TaskStatus.pending
          ["task_0"] none none]
      next_agent := "executor" }

/-- C6: when the task at the cursor has an unmet dependency (missing id
or a dependency that is not Completed), the executor step is the same
for every tool registry and every LLM response — no tool and no LLM is
consulted — and it marks that task Failed with the descriptive error,
appends the error to the errors list, sets the next stage to the
validator, and leaves the tool log unchanged; the cursor position in the
plan is arbitrary. -/
theorem c6_dependency_failure (tools tools2 : ToolRegistry)
    (llm llm2 : Except String String) (s : AgentState) (t : Task)
    (hget : s.task_plan.get? s.current_task_index = some t)
    (hdep : check_dependencies t s.task_plan = false) :
    executor_execute tools llm s = executor_execute tools2 llm2 s ∧
    (executor_execute tools llm s).task_plan =
      s.task_plan.set s.current_task_index
        { t with status := TaskStatus.failed,
                 error := some ("Dependencies not met for " ++ t.id) } ∧
    (executor_execute tools llm s).errors =
      s.errors ++ ["Dependencies not met for " ++ t.id] ∧
    (executor_execute tools llm s).next_agent = "validator" ∧
    (executor_execute tools llm s).tool_calls = s.tool_calls := by
  rw [executor_execute_depfail tools llm s t hget hdep,
    executor_execute_depfail tools2 llm2 s t hget hdep]
  exact ⟨rfl, rfl, rfl, rfl, rfl⟩

/-- C6 witness: the theorem applied at a concrete state whose task
depends on the missing id "task_0". -/
theorem c6_witness :
    executor_execute calcRegistry
        (Except.ok "TOOL: calculator | INPUT: 5 + 3") c6State =
      executor_execute (fun _ => none) (Except.error "boom") c6State ∧
    (executor_execute calcRegistry
        (Except.ok "TOOL: calculator | INPUT: 5 + 3") c6State).task_plan =
      c6State.task_plan.set c6State.current_task_index
        { Task.mk "task_1" "dependent step" "executor" TaskStatus.pending
            ["task_0"] none none with
          status := TaskStatus.failed
          error := some ("Dependencies not met for " ++ "task_1") } ∧
    (executor_execute calcRegistry
        (Except.ok "TOOL: calculator | INPUT: 5 + 3") c6State).errors =
      c6State.errors ++ ["Dependencies not met for " ++ "task_1"] ∧
    (executor_execute calcRegistry
        (Except.ok "TOOL: calculator | INPUT: 5 + 3") c6State).next_agent =
      "validator" ∧
    (executor_execute calcRegistry
        (Except.ok "TOOL: calculator | INPUT: 5 + 3") c6State).tool_calls =
      c6State.tool_calls :=
  c6_dependency_failure calcRegistry (fun _ => none)
    (Except.ok "TOOL: calculator | INPUT: 5 + 3") (Except.error "boom")
    c6State
    (Task.mk "task_1" "dependent step" "executor" TaskStatus.pending
      ["task_0"] none none)
    (by decide) (by decide)

/-! ## C7 -/

theorem planner_retry_eq (plan : Except String (List PlannedTask))
    (s : AgentState) :
    (planner_execute plan s).retry_count = s.retry_count := by
  cases plan <;> rfl

theorem executor_retry_eq (tools : ToolRegistry)
    (llm : Except String String) (s : AgentState) :
    (executor_execute tools llm s).retry_count = s.retry_count := by
  cases hget : s.task_plan.get? s.current_task_index with
  | none => rw [executor_execute_done tools llm s hget]
  | some t =>
    cases hdep : check_dependencies t s.task_plan with
    | false => rw [executor_execute_depfail tools llm s t hget hdep]
    | true =>
      cases llm with
      | error e => rw [executor_execute_err tools e s t hget hdep]
      | ok resp =>
        rw [executor_execute_ok tools resp s t hget hdep]
        rfl

theorem validator_retry_cases (thr : ℚ)
    (v : Except String ValidationResult) (s : AgentState) :
    (validator_execute thr v s).retry_count = s.retry_count ∨
    ((validator_execute thr v s).retry_count = s.retry_count + 1 ∧
      s.retry_count < 2) := by
  simp only [validator_execute, validator_fast_path, validator_normal]
  repeat' split
  all_goals try (left; rfl)
  next h => exact Or.inr ⟨rfl, h⟩

theorem memory_retry_eq (r : String) (ok : Bool) (err : String)
    (s : AgentState) :
    (memory_execute r ok err s).retry_count = s.retry_count := by
  simp only [memory_execute]
  repeat' split
  all_goals rfl

theorem step_retry_mono {s t : AgentState} (h : WorkflowStep s t) :
    s.retry_count ≤ t.retry_count := by
  cases h with
  | planner plan s => have := planner_retry_eq plan s; omega
  | executor tools llm s => have := executor_retry_eq tools llm s; omega
  | validator thr v s =>
    rcases validator_retry_cases thr v s with h1 | ⟨h1, h2⟩ <;> omega
  | memory r ok err s => have := memory_retry_eq r ok err s; omega

theorem step_retry_le2 {s t : AgentState} (h : WorkflowStep s t)
    (hs : s.retry_count ≤ 2) : t.retry_count ≤ 2 := by
  cases h with
  | planner plan s => have := planner_retry_eq plan s; omega
  | executor tools llm s => have := executor_retry_eq tools llm s; omega
  | validator thr v s =>
    rcases validator_retry_cases thr v s with h1 | ⟨h1, h2⟩ <;> omega
  | memory r ok err s => have := memory_retry_eq r ok err s; omega

theorem reachable_retry_le2 {s : AgentState} (h : Reachable s) :
    s.retry_count ≤ 2 := by
  induction h with
  | init u => exact Nat.zero_le 2
  | step hr hstep ih => exact step_retry_le2 hstep ih

/-- C7: in every reachable state retry_count is at most the fixed
maximum 2, and no agent step (planner, executor, validator or memory,
under any collaborator behaviour) ever decreases retry_count. -/
theorem c7_retry_invariant (s t : AgentState) :
    (Reachable s → s.retry_count ≤ 2) ∧
    (WorkflowStep s t → s.retry_count ≤ t.retry_count) :=
  ⟨fun h => reachable_retry_le2 h, fun h => step_retry_mono h⟩

/-- C7 witness: the invariant applied to the initial state of a run and
to a concrete planner step out of it. -/
theorem c7_retry_invariant_witness :
    (create_initial_state "goal").retry_count ≤ 2 ∧
    (create_initial_state "goal").retry_count ≤
      (planner_execute (Except.error "boom")
        (create_initial_state "goal")).retry_count :=
  ⟨(c7_retry_invariant (create_initial_state "goal")
      (planner_execute (Except.error "boom") (create_initial_state "goal"))).1
    (Reachable.init "goal"),
   (c7_retry_invariant (create_initial_state "goal")
      (planner_execute (Except.error "boom") (create_initial_state "goal"))).2
    (WorkflowStep.planner (Except.error "boom")
      (create_initial_state "goal"))⟩

/-! ## C8 -/

/-- C8: the retry reset (mapping reset_failed_task over the plan,
validator_agent.py lines 98-100) leaves every Completed task exactly as
it was: the same task record — status, result and error included — is
found at the same position, and reset_failed_task is the identity on
it. -/
theorem c8_reset_preserves_completed (plan : List Task) (i : Nat)
    (t : Task) (hget : plan.get? i = some t)
    (hc : t.status = TaskStatus.completed) :
    (plan.map reset_failed_task).get? i = some t ∧
    reset_failed_task t = t := by
  have hr : reset_failed_task t = t := by
    unfold reset_failed_task
    rw [hc]
    rfl
  refine ⟨?_, hr⟩
  rw [List.get?_map, hget]
  simp [hr]

/-- C8 witness: the theorem applied to a concrete plan holding a
Completed task (with a stored result) next to a Failed one. -/
theorem c8_witness :
    ([{ addTask with status := TaskStatus.completed, result := some "8" },
       Task.mk "task_2" "second step" "executor" TaskStatus.failed []
         none (some "boom")].map reset_failed_task).get? 0 =
      some { addTask with status := TaskStatus.completed, result := some "8" } ∧
    reset_failed_task
        { addTask with status := TaskStatus.completed, result := some "8" } =
      { addTask with status := TaskStatus.completed, result := some "8" } :=
  c8_reset_preserves_completed
    [{ addTask with status := TaskStatus.completed, result := some "8" },
     Task.mk "task_2" "second step" "executor" TaskStatus.failed []
       none (some "boom")] 0
    { addTask with status := TaskStatus.completed, result := some "8" }
    (by decide) (by decide)

/-! ## C9 -/

theorem execute_with_tools_unknown_eq (tools : ToolRegistry)
    (resp : String)
    (h1 : containsSub resp "TOOL:" = true)
    (h2 : containsSub resp "INPUT:" = true)
    (hu : tools (pyStrip ((pySplit ((pySplit resp "TOOL:").getD 1 "") "|").getD 0 ""))
        = none) :
    execute_with_tools tools resp = resp := by
  simp only [execute_with_tools, h1, h2, Bool.and_self, if_true, hu]

/-- C9: when the LLM response names a tool that is not in the registry
(the parsed tool name looks up to none), no tool is invoked: the raw LLM
response becomes the task's result, the task is marked Completed with no
error recorded, the response is what is logged and stored, and the
cursor advances to the next task. -/
theorem c9_unknown_tool (tools : ToolRegistry) (resp : String)
    (s : AgentState) (t : Task)
    (hget : s.task_plan.get? s.current_task_index = some t)
    (hdep : check_dependencies t s.task_plan = true)
    (h1 : containsSub resp "TOOL:" = true)
    (h2 : containsSub resp "INPUT:" = true)
    (hu : tools (pyStrip ((pySplit ((pySplit resp "TOOL:").getD 1 "") "|").getD 0 ""))
        = none) :
    (executor_execute tools (Except.ok resp) s).task_plan =
      s.task_plan.set s.current_task_index
        { t with status := TaskStatus.completed, result := some resp } ∧
    (executor_execute tools (Except.ok resp) s).tool_calls =
      s.tool_calls ++ [ToolCallEntry.mk t.id t.description resp] ∧
    (executor_execute tools (Except.ok resp) s).execution_results =
      dictInsert s.execution_results t.id resp ∧
    (executor_execute tools (Except.ok resp) s).current_task_index =
      s.current_task_index + 1 ∧
    (executor_execute tools (Except.ok resp) s).errors = s.errors := by
  have he := execute_with_tools_unknown_eq tools resp h1 h2 hu
  rw [executor_execute_ok tools resp s t hget hdep]
  simp only [executorCompletedState, he]
  refine ⟨?_, ?_, ?_, ?_, ?_⟩ <;> trivial

/-- C9 witness: the theorem applied at a concrete state where the LLM
selects the unknown tool "web_search" against a registry holding only
the calculator. -/
theorem c9_witness :
    (executor_execute calcRegistry
        (Except.ok "TOOL: web_search | INPUT: find cats") c1State).task_plan =
      c1State.task_plan.set c1State.current_task_index
        { addTask with
            status := TaskStatus.completed
            result := some "TOOL: web_search | INPUT: find cats" } ∧
    (executor_execute calcRegistry
        (Except.ok "TOOL: web_search | INPUT: find cats") c1State).tool_calls =
      c1State.tool_calls ++
        [ToolCallEntry.mk addTask.id addTask.description
          "TOOL: web_search | INPUT: find cats"] ∧
    (executor_execute calcRegistry
        (Except.ok "TOOL: web_search | INPUT: find cats")
        c1State).execution_results =
      dictInsert c1State.execution_results addTask.id
        "TOOL: web_search | INPUT: find cats" ∧
    (executor_execute calcRegistry
        (Except.ok "TOOL: web_search | INPUT: find cats")
        c1State).current_task_index = c1State.current_task_index + 1 ∧
    (executor_execute calcRegistry
        (Except.ok "TOOL: web_search | INPUT: find cats") c1State).errors =
      c1State.errors :=
  c9_unknown_tool calcRegistry "TOOL: web_search | INPUT: find cats"
    c1State addTask (by decide) (by decide) (by decide) (by decide)
    (by rfl)

/-! ## C10 -/

/-- C10: a single executor step either leaves the tool log and the
results map exactly unchanged (the cursor-past-plan, unmet-dependency
and internal-exception branches, all of which leave the current task
non-Completed), or it appends exactly one tool-log entry and one results
entry, both belonging to the task at the cursor, which that same step
has just set to Completed with the logged result; so entries are
recorded only for tasks that end their execution step Completed. -/
theorem c10_logs_only_for_completed (tools : ToolRegistry)
    (llm : Except String String) (s : AgentState) :
    ((executor_execute tools llm s).tool_calls = s.tool_calls ∧
     (executor_execute tools llm s).execution_results =
       s.execution_results) ∨
    (∃ t r,
      (executor_execute tools llm s).task_plan =
        s.task_plan.set s.current_task_index t ∧
      t.status = TaskStatus.completed ∧
      t.result = some r ∧
      (executor_execute tools llm s).tool_calls =
        s.tool_calls ++ [ToolCallEntry.mk t.id t.description r] ∧
      (executor_execute tools llm s).execution_results =
        dictInsert s.execution_results t.id r) := by
  cases hget : s.task_plan.get? s.current_task_index with
  | none =>
    left
    rw [executor_execute_done tools llm s hget]
    exact ⟨rfl, rfl⟩
  | some t =>
    cases hdep : check_dependencies t s.task_plan with
    | false =>
      left
      rw [executor_execute_depfail tools llm s t hget hdep]
      exact ⟨rfl, rfl⟩
    | true =>
      cases llm with
      | error e =>
        left
        rw [executor_execute_err tools e s t hget hdep]
        exact ⟨rfl, rfl⟩
      | ok resp =>
        right
        refine ⟨{ t with
            status := TaskStatus.completed
            result := some (execute_with_tools tools resp) },
          execute_with_tools tools resp, ?_, rfl, rfl, ?_, ?_⟩ <;>
          (rw [executor_execute_ok tools resp s t hget hdep]; rfl)

end GenAgent
